import Mathlib

/-!
Shallow embedding of `tris/wunderground_exporter` (`main.go`), a metrics
bridge that fetches one weather-station observation from the Weather
Underground API per scrape and renders it as labeled gauge samples.

Modelling choices:
* JSON numbers are modelled by `JNum`: an integer literal (`jint`) or a
  literal carrying a fractional/exponent part (`jfrac`), because Go's
  `encoding/json` rejects non-integer number literals for `int` struct
  fields while `float64` fields accept any number.
* The upstream HTTP exchange is a value of `TransportResult`: the
  transport may fail, reading the body may fail, and an obtained body
  carries both its raw text and (when it is well-formed) its parsed
  `observations` array.
* `float64` values are carried as `ℚ`: the program only copies them,
  never computes with them, so exact rationals are a faithful carrier.
* Go's `(WeatherData, error)` return is `FetchResult.ok` / `FetchResult.err`
  (the latter carrying the returned `WeatherData` alongside the error);
  an out-of-range slice index is the distinct outcome `FetchResult.panic`.
-/

namespace WundergroundExporter

/-- A JSON number literal: either an integer literal, or one with a
fractional or exponent part (which Go refuses to unmarshal into `int`). -/
inductive JNum
  | jint (n : Int)
  | jfrac (q : ℚ)
deriving DecidableEq, Repr

/-- Numeric value of a JSON number literal. -/
def JNum.val : JNum → ℚ
  | .jint n => (n : ℚ)
  | .jfrac q => q

/-- Whether the literal is an integer literal. -/
def JNum.isInt : JNum → Bool
  | .jint _ => true
  | .jfrac _ => false

/-- Result of unmarshalling the literal into a Go `int`:
fails on a fractional literal. -/
def JNum.toInt : JNum → Option Int
  | .jint n => some n
  | .jfrac _ => none

/-- An arbitrary JSON value, for the `interface\x7b\x7d`-typed
`realtimeFrequency` field: decoded for compatibility, never read. -/
inductive JAny
  | null
  | num (q : ℚ)
  | str (s : String)
deriving DecidableEq, Repr

/-- Wire form of the nested `"metric"` block of one observation entry
(every field is `float64` in the Go struct). -/
structure RawMetricBlock where
  temp : JNum
  heatIndex : JNum
  dewpt : JNum
  windChill : JNum
  windSpeed : JNum
  windGust : JNum
  pressure : JNum
  precipRate : JNum
  precipTotal : JNum
  elev : JNum
deriving DecidableEq, Repr

/-- Wire form of one entry of the upstream `"observations"` array. -/
structure RawObservationEntry where
  stationID : String
  obsTimeUtc : String
  obsTimeLocal : String
  neighborhood : String
  softwareType : String
  country : String
  solarRadiation : JNum
  lat : JNum
  lon : JNum
  realtimeFrequency : JAny
  epoch : JNum
  uv : JNum
  winddir : JNum
  humidity : JNum
  qcStatus : JNum
  metric : RawMetricBlock
deriving DecidableEq, Repr

/-- Decoded Go struct for the nested metric block: all fields `float64`. -/
structure MetricBlock where
  temp : ℚ
  heatIndex : ℚ
  dewpt : ℚ
  windChill : ℚ
  windSpeed : ℚ
  windGust : ℚ
  pressure : ℚ
  precipRate : ℚ
  precipTotal : ℚ
  elev : ℚ
deriving DecidableEq, Repr

/-- Decoded Go struct for one observation entry. `epoch`, `winddir` and
`qcStatus` are declared `int` in the source; the rest of the numeric
fields are `float64`. -/
structure ObservationEntry where
  stationID : String
  obsTimeUtc : String
  obsTimeLocal : String
  neighborhood : String
  softwareType : String
  country : String
  solarRadiation : ℚ
  lat : ℚ
  lon : ℚ
  realtimeFrequency : JAny
  epoch : Int
  uv : ℚ
  winddir : Int
  humidity : ℚ
  qcStatus : Int
  metric : MetricBlock
deriving DecidableEq, Repr

/-- Decoded Go struct `WeatherObservation`. -/
structure WeatherObservation where
  observations : List ObservationEntry
deriving DecidableEq, Repr

/-- Unmarshal the metric block (all `float64`: always succeeds). -/
def decodeMetricBlock (m : RawMetricBlock) : MetricBlock :=
  { temp := m.temp.val
    heatIndex := m.heatIndex.val
    dewpt := m.dewpt.val
    windChill := m.windChill.val
    windSpeed := m.windSpeed.val
    windGust := m.windGust.val
    pressure := m.pressure.val
    precipRate := m.precipRate.val
    precipTotal := m.precipTotal.val
    elev := m.elev.val }

/-- Unmarshal one observation entry into the Go struct. The three `int`
fields reject fractional literals; every `float64` field accepts any
number literal. -/
def decodeEntry (e : RawObservationEntry) : Option ObservationEntry := do
  let epoch ← e.epoch.toInt
  let winddir ← e.winddir.toInt
  let qcStatus ← e.qcStatus.toInt
  some
    { stationID := e.stationID
      obsTimeUtc := e.obsTimeUtc
      obsTimeLocal := e.obsTimeLocal
      neighborhood := e.neighborhood
      softwareType := e.softwareType
      country := e.country
      solarRadiation := e.solarRadiation.val
      lat := e.lat.val
      lon := e.lon.val
      realtimeFrequency := e.realtimeFrequency
      epoch := epoch
      uv := e.uv.val
      winddir := winddir
      humidity := e.humidity.val
      qcStatus := qcStatus
      metric := decodeMetricBlock e.metric }

/-- Unmarshal the observations array element by element; as in
`encoding/json`, a type error anywhere makes `Unmarshal` return an
error, so the whole decode fails. -/
def decodeObservations : List RawObservationEntry → Option (List ObservationEntry)
  | [] => some []
  | e :: rest =>
    match decodeEntry e, decodeObservations rest with
    | some d, some ds => some (d :: ds)
    | _, _ => none

/-- The response body obtained from the upstream call: its raw text,
and, when it is valid JSON of the expected shape, the parsed
`observations` array. -/
inductive BodyContent
  | invalid (text : String)
  | parsed (text : String) (observations : List RawObservationEntry)
deriving DecidableEq, Repr

/-- Raw text of the body (what `string(body)` yields in the source). -/
def BodyContent.text : BodyContent → String
  | .invalid t => t
  | .parsed t _ => t

/-- `json.Unmarshal(body, &weatherObservation)` on the body. -/
def decodeBody : BodyContent → Option WeatherObservation
  | .invalid _ => none
  | .parsed _ obs => (decodeObservations obs).map WeatherObservation.mk

/-- Outcome of reading the response body (`ioutil.ReadAll`). -/
inductive ReadResult
  | readFail
  | body (content : BodyContent)
deriving DecidableEq, Repr

/-- Outcome of the outbound `http.Get`: the transport may fail, or a
response with a status code arrives and its body is then read. -/
inductive TransportResult
  | transportFail
  | response (statusCode : Nat) (readResult : ReadResult)
deriving DecidableEq, Repr

/-- The error values `fetchWeatherData` can return. -/
inductive FetchError
  | transportError
  | readError
  | statusError (statusCode : Nat) (bodyText : String)
  | decodeError
deriving DecidableEq, Repr

/-- The `WeatherData` struct produced by the fetcher. `Sensors` is a
`map[string]float64` in Go; its literal is modelled as the association
list in source order, with map semantics expressed through lookups. -/
structure WeatherData where
  stationID : String
  epoch : Int
  latitude : ℚ
  longitude : ℚ
  elevation : ℚ
  neighborhood : String
  softwareType : String
  country : String
  sensors : List (String × ℚ)
deriving DecidableEq, Repr

/-- The zero value `WeatherData\x7b\x7d` returned on Go error paths. -/
def zeroWeatherData : WeatherData :=
  { stationID := ""
    epoch := 0
    latitude := 0
    longitude := 0
    elevation := 0
    neighborhood := ""
    softwareType := ""
    country := ""
    sensors := [] }

/-- The `WeatherData` literal built from the first observation entry
(source lines 233-255), including the eleven-key `Sensors` map literal. -/
def mkWeatherData (stationID : String) (obs : ObservationEntry) : WeatherData :=
  { stationID := stationID
    epoch := obs.epoch
    latitude := obs.lat
    longitude := obs.lon
    elevation := obs.metric.elev
    neighborhood := obs.neighborhood
    softwareType := obs.softwareType
    country := obs.country
    sensors :=
      [("temperature", obs.metric.temp),
       ("dewpoint", obs.metric.dewpt),
       ("humidity", obs.humidity),
       ("pressure", obs.metric.pressure),
       ("windspeed", obs.metric.windSpeed),
       ("winddirection", (obs.winddir : ℚ)),
       ("windgust", obs.metric.windGust),
       ("precipitation_rate", obs.metric.precipRate),
       ("precipitation_total", obs.metric.precipTotal),
       ("uv_index", obs.uv),
       ("solar_radiation", obs.solarRadiation)] }

/-- Result of `fetchWeatherData`, which in Go returns the pair
`(WeatherData, error)`; indexing the empty observations slice is the
separate outcome `panic`. -/
inductive FetchResult
  | ok (data : WeatherData)
  | err (data : WeatherData) (error : FetchError)
  | panic
deriving DecidableEq, Repr

/-- `fetchWeatherData` (source lines 208-258): read the body, reject a
non-200 status with an error carrying the status and the raw body text,
unmarshal, then take `Observations[0]` — with no length check, so an
empty array is the out-of-range `panic` outcome. -/
def fetchWeatherData (stationID : String) (tr : TransportResult) : FetchResult :=
  match tr with
  | .transportFail => .err zeroWeatherData .transportError
  | .response statusCode readResult =>
    match readResult with
    | .readFail => .err zeroWeatherData .readError
    | .body content =>
      if statusCode ≠ 200 then
        .err zeroWeatherData (.statusError statusCode content.text)
      else
        match decodeBody content with
        | none => .err zeroWeatherData .decodeError
        | some weatherObservation =>
          match weatherObservation.observations with
          | [] => .panic
          | obs :: _ => .ok (mkWeatherData stationID obs)

/-- One gauge-vector definition: the sensor key it is registered under
in the metrics map, the Prometheus metric name, and the help text. -/
structure MetricDef where
  key : String
  name : String
  help : String
deriving DecidableEq, Repr

/-- The shared label names of every gauge vector. -/
def metricLabels : List String :=
  ["stationID", "neighborhood", "softwareType", "country"]

/-- `newWeatherMetrics` (source lines 25-162): the per-request metric
definition table. The Go map literal is modelled as an association list
in source order; every entry carries the same four labels. -/
def newWeatherMetrics : List MetricDef :=
  [⟨"temperature", "wunderground_temp", "Air temperature in degrees Celsius"⟩,
   ⟨"dewpoint", "wunderground_dewpt", "Dew point temperature in degrees Celsius"⟩,
   ⟨"humidity", "wunderground_humidity", "Relative humidity in percentage"⟩,
   ⟨"pressure", "wunderground_pressure", "Atmospheric pressure at sea level in hectopascals"⟩,
   ⟨"windspeed", "wunderground_windSpeed", "Wind speed in meters per second"⟩,
   ⟨"winddirection", "wunderground_windDir", "Wind direction in degrees"⟩,
   ⟨"windgust", "wunderground_windGust", "Wind gust speed in meters per second"⟩,
   ⟨"precipitation_rate", "wunderground_precipRate", "Precipitation rate in millimeters per hour"⟩,
   ⟨"precipitation_total", "wunderground_precipTotal", "Total accumulated precipitation in millimeters"⟩,
   ⟨"uv_index", "wunderground_uv", "Ultraviolet Index"⟩,
   ⟨"solar_radiation", "wunderground_solarRadiation", "Solar radiation in watts per square meter"⟩,
   ⟨"epoch", "wunderground_epoch", "Epoch time in seconds"⟩,
   ⟨"visibility", "wunderground_visibility", "Visibility in meters"⟩,
   ⟨"soil_temperature", "wunderground_soilTemp", "Soil temperature in degrees Celsius"⟩,
   ⟨"soil_moisture", "wunderground_soilMoisture", "Soil moisture in percentage"⟩,
   ⟨"windchill", "wunderground_windChill", "Wind chill temperature in degrees Celsius"⟩,
   ⟨"elevation", "wunderground_elevation", "Elevation in meters"⟩,
   ⟨"latitude", "wunderground_latitude", "Latitude"⟩,
   ⟨"longitude", "wunderground_longitude", "Longitude"⟩]

/-- The sensor keys defined by the metric table. -/
def weatherMetricsKeys : List String :=
  newWeatherMetrics.map (fun m => m.key)

/-- State of the freshly registered gauges of one request: at most one
label tuple is ever used per request, so a gauge's state is the
optional value set under that tuple, indexed by sensor key. -/
abbrev GaugeState := String → Option ℚ

/-- Freshly registered gauge vectors have no children. -/
def emptyGauges : GaugeState := fun _ => none

/-- Set one gauge's value. -/
def setGauge (st : GaugeState) (key : String) (v : ℚ) : GaugeState :=
  fun k => if k = key then some v else st k

/-- The population loop (source lines 282-286): for each sensor/value
pair, in the map's iteration order, set the gauge if the sensor key is
defined in the metric table, and silently skip it otherwise. -/
def setGauges (st : GaugeState) : List (String × ℚ) → GaugeState
  | [] => st
  | (sensor, value) :: rest =>
    setGauges (if sensor ∈ weatherMetricsKeys then setGauge st sensor value else st) rest

/-- One labeled sample of the rendered exposition output. -/
structure Sample where
  name : String
  stationID : String
  neighborhood : String
  softwareType : String
  country : String
  value : ℚ
deriving DecidableEq, Repr

/-- Lexicographic byte-order comparison on character lists, matching
the byte-wise string order the Prometheus registry sorts family names
by (the names here are ASCII, so codepoint order is byte order). -/
def charListLe : List Char → List Char → Bool
  | [], _ => true
  | _ :: _, [] => false
  | a :: as, b :: bs =>
    if a.toNat < b.toNat then true
    else if b.toNat < a.toNat then false
    else charListLe as bs

/-- Byte-order comparison of strings. -/
def strLe (a b : String) : Bool := charListLe a.data b.data

/-- The metric families in the order the Prometheus registry renders
them: sorted by metric name. -/
def sortedWeatherMetrics : List MetricDef :=
  newWeatherMetrics.insertionSort (fun a b => strLe a.name b.name = true)

/-- Rendering with an explicit iteration order for the `Sensors` map
(Go map iteration order is unspecified): populate the fresh gauges from
`order`, then emit one sample per gauge that was set, in name-sorted
family order; a registered gauge that was never set emits nothing. The
station label value is the caller-supplied `stationID` argument. -/
def renderWith (stationID : String) (d : WeatherData) (order : List (String × ℚ)) :
    List Sample :=
  let st := setGauges emptyGauges order
  sortedWeatherMetrics.filterMap fun m =>
    (st m.key).map fun v =>
      { name := m.name
        stationID := stationID
        neighborhood := d.neighborhood
        softwareType := d.softwareType
        country := d.country
        value := v }

/-- Rendering with the canonical iteration order of the sensors map. -/
def render (stationID : String) (d : WeatherData) : List Sample :=
  renderWith stationID d d.sensors

/-- Outcome of one `/scrape` request. -/
inductive ScrapeResult
  | badRequest (message : String)
  | internalError (error : FetchError)
  | ok (samples : List Sample)
  | panic
deriving DecidableEq, Repr

/-- The `/scrape` handler (source lines 263-289): require `station_id`,
fetch, and on success render the per-request registry. -/
def scrape (stationID : String) (tr : TransportResult) : ScrapeResult :=
  if stationID = "" then .badRequest "station_id query parameter is required"
  else
    match fetchWeatherData stationID tr with
    | .err _ e => .internalError e
    | .panic => .panic
    | .ok weatherData => .ok (render stationID weatherData)

/-! ### Shared facts about the embedding -/

/-- The eleven sensor keys of the `Sensors` map literal, in source order. -/
def sensorKeys : List String :=
  ["temperature", "dewpoint", "humidity", "pressure", "windspeed", "winddirection",
   "windgust", "precipitation_rate", "precipitation_total", "uv_index", "solar_radiation"]

theorem mkWeatherData_sensors_fst (s : String) (obs : ObservationEntry) :
    (mkWeatherData s obs).sensors.map Prod.fst = sensorKeys := rfl

theorem sensorKeys_nodup : sensorKeys.Nodup := by decide

theorem sorted_names_nodup : (sortedWeatherMetrics.map (fun m => m.name)).Nodup := by
  decide

theorem sortedWeatherMetrics_perm : sortedWeatherMetrics.Perm newWeatherMetrics :=
  List.perm_insertionSort _ _

/-- Unfolding `fetchWeatherData` on a well-formed 200 response. -/
theorem fetch_parsed_200 (s t : String) (entries : List RawObservationEntry) :
    fetchWeatherData s (.response 200 (.body (.parsed t entries))) =
      match decodeObservations entries with
      | none => .err zeroWeatherData .decodeError
      | some [] => .panic
      | some (obs :: _) => .ok (mkWeatherData s obs) := by
  rcases h : decodeObservations entries with _ | ⟨_ | ⟨obs, rest⟩⟩ <;>
    simp [fetchWeatherData, decodeBody, h]

/-- A successful fetch always returns the `WeatherData` literal built
from some decoded observation entry. -/
theorem fetch_ok_shape {s : String} {tr : TransportResult} {d : WeatherData}
    (h : fetchWeatherData s tr = .ok d) : ∃ obs, d = mkWeatherData s obs := by
  unfold fetchWeatherData at h
  split at h
  · exact absurd h (by simp)
  · split at h
    · exact absurd h (by simp)
    · split at h
      · exact absurd h (by simp)
      · split at h
        · exact absurd h (by simp)
        · split at h
          · exact absurd h (by simp)
          · exact ⟨_, (FetchResult.ok.injEq _ _ |>.mp h.symm)⟩

/-- A sensor key that never occurs in the iteration order leaves its
gauge untouched. -/
theorem setGauges_of_not_mem {k : String} :
    ∀ (l : List (String × ℚ)) (st : GaugeState), k ∉ l.map Prod.fst →
      setGauges st l k = st k
  | [], _, _ => rfl
  | (a, v) :: rest, st, h => by
    simp only [List.map_cons, List.mem_cons, not_or] at h
    rw [setGauges, setGauges_of_not_mem rest _ h.2]
    split
    · simp [setGauge, h.1]
    · rfl

/-- A sensor key outside the metric table is never written, whatever
the iteration order contains. -/
theorem setGauges_of_not_table {k : String} (hk : k ∉ weatherMetricsKeys) :
    ∀ (l : List (String × ℚ)) (st : GaugeState), setGauges st l k = st k
  | [], _ => rfl
  | (a, v) :: rest, st => by
    rw [setGauges, setGauges_of_not_table hk rest]
    split
    · rename_i ha
      have hne : k ≠ a := fun h => hk (by rw [h]; exact ha)
      simp [setGauge, hne]
    · rfl

/-- When the iteration order has no duplicate keys, a tabled key that
occurs with value `v` ends up set to `v`. -/
theorem setGauges_of_mem {k : String} {v : ℚ} (hk : k ∈ weatherMetricsKeys) :
    ∀ (l : List (String × ℚ)) (st : GaugeState),
      (l.map Prod.fst).Nodup → (k, v) ∈ l → setGauges st l k = some v
  | [], _, _, hm => absurd hm (List.not_mem_nil _)
  | (a, w) :: rest, st, hnd, hm => by
    simp only [List.map_cons, List.nodup_cons] at hnd
    rw [setGauges]
    rcases List.mem_cons.mp hm with heq | hmr
    · cases heq
      rw [setGauges_of_not_mem rest _ hnd.1]
      simp [hk, setGauge]
    · exact setGauges_of_mem hk rest _ hnd.2 hmr

/-- The gauge state reached by the population loop does not depend on
the iteration order of the `Sensors` map. -/
theorem setGauges_perm (st : GaugeState) {l₁ l₂ : List (String × ℚ)}
    (hp : l₁.Perm l₂) (hnd : (l₁.map Prod.fst).Nodup) :
    setGauges st l₁ = setGauges st l₂ := by
  funext k
  by_cases hk : k ∈ weatherMetricsKeys
  · by_cases hmem : k ∈ l₁.map Prod.fst
    · obtain ⟨⟨k', v⟩, hpv, hfst⟩ := List.mem_map.mp hmem
      cases hfst
      rw [setGauges_of_mem hk l₁ st hnd hpv,
        setGauges_of_mem hk l₂ st ((hp.map Prod.fst).nodup_iff.mp hnd) (hp.subset hpv)]
    · rw [setGauges_of_not_mem l₁ st hmem,
        setGauges_of_not_mem l₂ st (fun hc => hmem ((hp.map Prod.fst).mem_iff.mpr hc))]
  · rw [setGauges_of_not_table hk l₁, setGauges_of_not_table hk l₂]

/-- Shape of any sample in the rendered output. -/
theorem mem_renderWith {s : String} {d : WeatherData} {order : List (String × ℚ)}
    {x : Sample} (hx : x ∈ renderWith s d order) :
    ∃ m ∈ sortedWeatherMetrics, ∃ v, setGauges emptyGauges order m.key = some v ∧
      x = { name := m.name, stationID := s, neighborhood := d.neighborhood,
            softwareType := d.softwareType, country := d.country, value := v } := by
  simp only [renderWith, List.mem_filterMap] at hx
  obtain ⟨m, hm, hopt⟩ := hx
  rcases hst : setGauges emptyGauges order m.key with _ | v
  · rw [hst] at hopt
    simp at hopt
  · rw [hst] at hopt
    simp only [Option.map_some'] at hopt
    exact ⟨m, hm, v, hst, (Option.some.injEq _ _ |>.mp hopt).symm⟩

/-! ### Shared concrete data for witnesses and counterexamples -/

/-- A well-formed metric block with fractional float fields. -/
def exampleMetricBlock : RawMetricBlock :=
  { temp := .jfrac (Rat.mk' 213 10)
    heatIndex := .jint 21
    dewpt := .jfrac (Rat.mk' 97 10)
    windChill := .jint 21
    windSpeed := .jfrac (Rat.mk' 3 2)
    windGust := .jint 2
    pressure := .jfrac (Rat.mk' 5066 5)
    precipRate := .jint 0
    precipTotal := .jint 3
    elev := .jint 120 }

/-- A well-formed upstream observation entry; its station identifier
deliberately differs from the caller-supplied one used in witnesses. -/
def exampleRawEntry : RawObservationEntry :=
  { stationID := "KUPSTREAM"
    obsTimeUtc := "2024-01-01T00:00:00Z"
    obsTimeLocal := "2024-01-01 00:00:00"
    neighborhood := "Downtown"
    softwareType := "EasyWeather"
    country := "US"
    solarRadiation := .jfrac (Rat.mk' 617 5)
    lat := .jfrac (Rat.mk' 377 10)
    lon := .jfrac (Rat.mk' (-612) 5)
    realtimeFrequency := .null
    epoch := .jint 1700000000
    uv := .jint 5
    winddir := .jint 270
    humidity := .jfrac (Rat.mk' 276 5)
    qcStatus := .jint 1
    metric := exampleMetricBlock }

/-- The same entry with a fractional `epoch`, which the Go `int` field
rejects. -/
def fracEpochRawEntry : RawObservationEntry :=
  { exampleRawEntry with epoch := .jfrac (Rat.mk' 3 2) }

/-- A successful upstream exchange carrying one well-formed entry. -/
def exampleTransport : TransportResult :=
  .response 200 (.body (.parsed "ok-body" [exampleRawEntry]))

/-- The `WeatherData` the fetcher produces from `exampleTransport` for
the caller-supplied station ID `KCALLER`. -/
def exampleWeatherData : WeatherData :=
  { stationID := "KCALLER"
    epoch := 1700000000
    latitude := Rat.mk' 377 10
    longitude := Rat.mk' (-612) 5
    elevation := Rat.mk' 120 1
    neighborhood := "Downtown"
    softwareType := "EasyWeather"
    country := "US"
    sensors :=
      [("temperature", Rat.mk' 213 10),
       ("dewpoint", Rat.mk' 97 10),
       ("humidity", Rat.mk' 276 5),
       ("pressure", Rat.mk' 5066 5),
       ("windspeed", Rat.mk' 3 2),
       ("winddirection", Rat.mk' 270 1),
       ("windgust", Rat.mk' 2 1),
       ("precipitation_rate", Rat.mk' 0 1),
       ("precipitation_total", Rat.mk' 3 1),
       ("uv_index", Rat.mk' 5 1),
       ("solar_radiation", Rat.mk' 617 5)] }

/-- The decoded Go struct `decodeEntry` produces when the three `int`
fields carry the integer literals `ne`, `nw` and `nq`. -/
def decodedEntry (e : RawObservationEntry) (ne nw nq : Int) : ObservationEntry :=
  { stationID := e.stationID
    obsTimeUtc := e.obsTimeUtc
    obsTimeLocal := e.obsTimeLocal
    neighborhood := e.neighborhood
    softwareType := e.softwareType
    country := e.country
    solarRadiation := e.solarRadiation.val
    lat := e.lat.val
    lon := e.lon.val
    realtimeFrequency := e.realtimeFrequency
    epoch := ne
    uv := e.uv.val
    winddir := nw
    humidity := e.humidity.val
    qcStatus := nq
    metric := decodeMetricBlock e.metric }

theorem decodeEntry_jint (e : RawObservationEntry) (ne nw nq : Int)
    (he : e.epoch = .jint ne) (hw : e.winddir = .jint nw) (hq : e.qcStatus = .jint nq) :
    decodeEntry e = some (decodedEntry e ne nw nq) := by
  simp [decodeEntry, decodedEntry, he, hw, hq, JNum.toInt]

theorem decodeEntry_some_inv {e : RawObservationEntry} {obs : ObservationEntry}
    (h : decodeEntry e = some obs) :
    ∃ ne nw nq, e.epoch = .jint ne ∧ e.winddir = .jint nw ∧ e.qcStatus = .jint nq ∧
      obs = decodedEntry e ne nw nq := by
  rcases he : e.epoch with ne | q1
  · rcases hw : e.winddir with nw | q2
    · rcases hq : e.qcStatus with nq | q3
      · rw [decodeEntry_jint e ne nw nq he hw hq] at h
        exact ⟨ne, nw, nq, rfl, rfl, rfl, (Option.some.injEq _ _ |>.mp h).symm⟩
      · simp [decodeEntry, he, hw, hq, JNum.toInt] at h
    · simp [decodeEntry, he, hw, JNum.toInt] at h
  · simp [decodeEntry, he, JNum.toInt] at h

/-- A successful fetch of a well-formed 200 response decodes its first
entry and builds the `WeatherData` from it. -/
theorem fetch_ok_first_entry {s t : String} {e : RawObservationEntry}
    {r : List RawObservationEntry} {d : WeatherData}
    (h : fetchWeatherData s (.response 200 (.body (.parsed t (e :: r)))) = .ok d) :
    ∃ obs, decodeEntry e = some obs ∧ d = mkWeatherData s obs := by
  rw [fetch_parsed_200] at h
  rcases hde : decodeEntry e with _ | obs
  · rcases hdr : decodeObservations r with _ | ds <;>
      simp [decodeObservations, hde, hdr] at h
  · rcases hdr : decodeObservations r with _ | ds
    · simp [decodeObservations, hde, hdr] at h
    · simp only [decodeObservations, hde, hdr] at h
      exact ⟨obs, rfl, ((FetchResult.ok.injEq _ _).mp h).symm⟩

/-- Key-to-name injectivity across the metric table. -/
theorem metric_names_inj :
    ∀ m₁ ∈ newWeatherMetrics, ∀ m₂ ∈ newWeatherMetrics,
      m₁.name = m₂.name → m₁.key = m₂.key := by
  decide

/-- A pair whose key is not in the metric table can be dropped from the
iteration order without changing the resulting gauge state. -/
theorem setGauges_append_skip {k : String} (hk : k ∉ weatherMetricsKeys) (v : ℚ) :
    ∀ (l₁ l₂ : List (String × ℚ)) (st : GaugeState),
      setGauges st (l₁ ++ (k, v) :: l₂) = setGauges st (l₁ ++ l₂)
  | [], l₂, st => by
    show setGauges (if k ∈ weatherMetricsKeys then setGauge st k v else st) l₂ =
      setGauges st l₂
    rw [if_neg hk]
  | (a, w) :: rest, l₂, st => by
    show setGauges (if a ∈ weatherMetricsKeys then setGauge st a w else st)
        (rest ++ (k, v) :: l₂) =
      setGauges (if a ∈ weatherMetricsKeys then setGauge st a w else st) (rest ++ l₂)
    exact setGauges_append_skip hk v rest l₂ _

/-! ### The claims -/

/-- C1 (code bug): the source indexes `Observations[0]` with no length
check and defines no no-observation error value, so a 200 response that
decodes successfully with an empty `observations` array makes the
fetcher panic with an out-of-range index instead of returning a
`NoObservationError`. -/
theorem claim_C1_empty_observations_panic :
    fetchWeatherData "KTEST1" (.response 200 (.body (.parsed "empty-observations" []))) =
      .panic := by
  decide

/-- C2: every sensor sample of a successful scrape carries the
caller-supplied station ID as its station label, not the station
identifier reported inside the upstream observation. -/
theorem claim_C2_samples_use_caller_station_id (s : String) (tr : TransportResult)
    (samples : List Sample) (h : scrape s tr = .ok samples)
    (x : Sample) (hx : x ∈ samples) : x.stationID = s := by
  unfold scrape at h
  split at h
  · exact absurd h (by simp)
  · split at h
    · exact absurd h (by simp)
    · exact absurd h (by simp)
    · obtain rfl : samples = render s _ := ((ScrapeResult.ok.injEq _ _).mp h).symm
      unfold render at hx
      obtain ⟨m, hm, v, hst, rfl⟩ := mem_renderWith hx
      rfl

/-- C2 witness: with an upstream entry reporting station `KUPSTREAM`,
the scrape for `KCALLER` labels its temperature sample `KCALLER`. -/
theorem claim_C2_witness :
    ({ name := "wunderground_temp", stationID := "KCALLER", neighborhood := "Downtown",
       softwareType := "EasyWeather", country := "US",
       value := Rat.mk' 213 10 } : Sample).stationID = "KCALLER" :=
  claim_C2_samples_use_caller_station_id "KCALLER" exampleTransport
    (render "KCALLER" exampleWeatherData) (by decide) _ (by decide)

/-- C3: a non-200 upstream response whose body was read makes the
fetcher return the status error carrying the numeric status code and
the raw body text, together with the zero `WeatherData` (no observation
data). -/
theorem claim_C3_non200_returns_status_error (s : String) (statusCode : Nat)
    (content : BodyContent) (h : statusCode ≠ 200) :
    fetchWeatherData s (.response statusCode (.body content)) =
      .err zeroWeatherData (.statusError statusCode content.text) := by
  simp [fetchWeatherData, h]

/-- C3 witness at status 500. -/
theorem claim_C3_witness :
    (500 : Nat) ≠ 200 ∧
      fetchWeatherData "KTEST1" (.response 500 (.body (.invalid "upstream error text"))) =
        .err zeroWeatherData (.statusError 500 "upstream error text") :=
  ⟨by decide,
   claim_C3_non200_returns_status_error "KTEST1" 500 (.invalid "upstream error text")
     (by decide)⟩

/-- C4 counterexample: a well-formed body whose `epoch` field carries
the fractional value 3/2 does not decode successfully; the fetch
reports the decode error. -/
theorem claim_C4_counterexample :
    fetchWeatherData "KTEST1"
        (.response 200 (.body (.parsed "fractional-epoch" [fracEpochRawEntry]))) =
      .err zeroWeatherData .decodeError := by
  decide

/-- C4 (amended): the numeric fields other than `epoch`, `winddir` and
`qcStatus` are decoded as floating point and accept fractional values,
but those three are decoded as Go `int`s: an entry decodes successfully
exactly when all three carry integer literals. -/
theorem claim_C4_amended_three_int_fields (e : RawObservationEntry) :
    (decodeEntry e).isSome = true ↔
      (e.epoch.isInt = true ∧ e.winddir.isInt = true ∧ e.qcStatus.isInt = true) := by
  rcases he : e.epoch with ne | q1 <;> rcases hw : e.winddir with nw | q2 <;>
    rcases hq : e.qcStatus with nq | q3 <;>
      simp [decodeEntry, JNum.toInt, JNum.isInt, he, hw, hq]

/-- C5 counterexample: the metric table defines 19 distinct sensor
keys, not 18 as claimed (the table also registers an `epoch` gauge the
sensors map never populates). -/
theorem claim_C5_counterexample :
    weatherMetricsKeys.Nodup ∧ weatherMetricsKeys.length ≠ 18 ∧
      weatherMetricsKeys.length = 19 := by
  decide

/-- C5 (amended): the per-request metric table defines exactly 19
sensor keys; only the 11 keys of the fetched sensors map are populated
(all of them defined in the table), and a registered gauge whose key
was never set contributes no labeled sample to the rendered output. -/
theorem claim_C5_amended_19_keys_11_populated (s : String) (tr : TransportResult)
    (d : WeatherData) (h : fetchWeatherData s tr = .ok d) :
    (weatherMetricsKeys.Nodup ∧ weatherMetricsKeys.length = 19) ∧
      (d.sensors.map Prod.fst = sensorKeys ∧ sensorKeys.length = 11 ∧
        ∀ k ∈ sensorKeys, k ∈ weatherMetricsKeys) ∧
      (∀ m ∈ newWeatherMetrics, m.key ∉ d.sensors.map Prod.fst →
        ∀ x ∈ render s d, x.name ≠ m.name) := by
  obtain ⟨obs, rfl⟩ := fetch_ok_shape h
  refine ⟨by decide, ⟨mkWeatherData_sensors_fst s obs, by decide, by decide⟩, ?_⟩
  intro m hm hkey x hx heq
  unfold render at hx
  obtain ⟨m', hm', v, hst, rfl⟩ := mem_renderWith hx
  have hkeq : m'.key = m.key :=
    metric_names_inj m' (sortedWeatherMetrics_perm.subset hm') m hm heq
  rw [hkeq, setGauges_of_not_mem _ _ hkey] at hst
  simp [emptyGauges] at hst

/-- C5 witness: the concrete fetched data populates exactly the 11
sensor keys out of the 19 defined. -/
theorem claim_C5_witness :
    weatherMetricsKeys.Nodup ∧ weatherMetricsKeys.length = 19 ∧
      exampleWeatherData.sensors.map Prod.fst = sensorKeys := by
  have A := claim_C5_amended_19_keys_11_populated "KCALLER" exampleTransport
    exampleWeatherData (by decide)
  exact ⟨A.1.1, A.1.2, A.2.1.1⟩

/-- C6: the eleven supported sensor fields of the first decoded entry
are copied verbatim into the sensors map under fixed string keys: each
mapped value equals the corresponding upstream field exactly. -/
theorem claim_C6_sensors_copied_verbatim (s t : String) (e : RawObservationEntry)
    (rest : List RawObservationEntry) (d : WeatherData)
    (h : fetchWeatherData s (.response 200 (.body (.parsed t (e :: rest)))) = .ok d) :
    d.sensors.lookup "temperature" = some e.metric.temp.val ∧
    d.sensors.lookup "dewpoint" = some e.metric.dewpt.val ∧
    d.sensors.lookup "humidity" = some e.humidity.val ∧
    d.sensors.lookup "pressure" = some e.metric.pressure.val ∧
    d.sensors.lookup "windspeed" = some e.metric.windSpeed.val ∧
    d.sensors.lookup "winddirection" = some e.winddir.val ∧
    d.sensors.lookup "windgust" = some e.metric.windGust.val ∧
    d.sensors.lookup "precipitation_rate" = some e.metric.precipRate.val ∧
    d.sensors.lookup "precipitation_total" = some e.metric.precipTotal.val ∧
    d.sensors.lookup "uv_index" = some e.uv.val ∧
    d.sensors.lookup "solar_radiation" = some e.solarRadiation.val := by
  obtain ⟨obs, hde, rfl⟩ := fetch_ok_first_entry h
  obtain ⟨ne, nw, nq, he, hw, hq, rfl⟩ := decodeEntry_some_inv hde
  refine ⟨rfl, rfl, rfl, rfl, rfl, ?_, rfl, rfl, rfl, rfl, rfl⟩
  rw [hw]
  rfl

/-- C6 witness on the concrete entry (one float-valued and the
int-backed wind-direction sensor shown). -/
theorem claim_C6_witness :
    exampleWeatherData.sensors.lookup "temperature" =
        some exampleRawEntry.metric.temp.val ∧
      exampleWeatherData.sensors.lookup "winddirection" =
        some exampleRawEntry.winddir.val := by
  have A := claim_C6_sensors_copied_verbatim "KCALLER" "ok-body" exampleRawEntry []
    exampleWeatherData (by decide)
  exact ⟨A.1, A.2.2.2.2.2.1⟩

/-- Two non-empty upstream responses agreeing on entry 0 but differing
in a later entry: the second one's later entry fails to decode. -/
def agreeingTransportA : TransportResult :=
  .response 200 (.body (.parsed "two-entries" [exampleRawEntry, exampleRawEntry]))

/-- Same first entry as `agreeingTransportA`, undecodable second entry. -/
def agreeingTransportB : TransportResult :=
  .response 200 (.body (.parsed "two-entries" [exampleRawEntry, fracEpochRawEntry]))

/-- C7 counterexample: decoding touches every entry, so two non-empty
responses that agree on entry 0 but differ in a later entry need not
produce identical fetch results: one succeeds, the other fails to
decode. -/
theorem claim_C7_counterexample :
    fetchWeatherData "KTEST1" agreeingTransportA ≠
      fetchWeatherData "KTEST1" agreeingTransportB := by
  decide

/-- C7 (amended): among responses on which the fetch succeeds, the
returned `WeatherData` depends only on the first entry: two successful
fetches of responses sharing entry 0 return identical data. -/
theorem claim_C7_amended_success_depends_on_first_entry (s t₁ t₂ : String)
    (e : RawObservationEntry) (r₁ r₂ : List RawObservationEntry) (d₁ d₂ : WeatherData)
    (h₁ : fetchWeatherData s (.response 200 (.body (.parsed t₁ (e :: r₁)))) = .ok d₁)
    (h₂ : fetchWeatherData s (.response 200 (.body (.parsed t₂ (e :: r₂)))) = .ok d₂) :
    d₁ = d₂ := by
  obtain ⟨o₁, hde₁, rfl⟩ := fetch_ok_first_entry h₁
  obtain ⟨o₂, hde₂, rfl⟩ := fetch_ok_first_entry h₂
  rw [hde₁] at hde₂
  exact congrArg (mkWeatherData s) ((Option.some.injEq _ _).mp hde₂)

/-- C7 witness: a one-entry and a two-entry response sharing entry 0
produce the same data. -/
theorem claim_C7_witness : exampleWeatherData = exampleWeatherData :=
  claim_C7_amended_success_depends_on_first_entry "KCALLER" "ok-body" "another-body"
    exampleRawEntry [] [exampleRawEntry] exampleWeatherData exampleWeatherData
    (by decide) (by decide)

/-- C8: the sensor keys of every fetched `WeatherData` are a subset of
the metric table's keys; and a sensor key absent from the table is
silently skipped by the population loop — rendering is total and the
unknown pair has no effect on the output. -/
theorem claim_C8_sensor_keys_subset_and_unknown_skipped :
    (∀ (s : String) (tr : TransportResult) (d : WeatherData),
        fetchWeatherData s tr = .ok d →
          ∀ k ∈ d.sensors.map Prod.fst, k ∈ weatherMetricsKeys) ∧
      (∀ (s : String) (d : WeatherData) (l₁ l₂ : List (String × ℚ)) (k : String) (v : ℚ),
        k ∉ weatherMetricsKeys →
          renderWith s d (l₁ ++ (k, v) :: l₂) = renderWith s d (l₁ ++ l₂)) := by
  constructor
  · intro s tr d h
    obtain ⟨obs, rfl⟩ := fetch_ok_shape h
    rw [mkWeatherData_sensors_fst]
    decide
  · intro s d l₁ l₂ k v hk
    unfold renderWith
    rw [setGauges_append_skip hk v l₁ l₂]

/-- C8 witness: a bogus sensor key prepended to the iteration order
changes nothing in the rendered output. -/
theorem claim_C8_witness :
    "temperature" ∈ weatherMetricsKeys ∧
      renderWith "KCALLER" exampleWeatherData
          (("bogus", Rat.mk' 7 1) :: exampleWeatherData.sensors) =
        renderWith "KCALLER" exampleWeatherData exampleWeatherData.sensors :=
  ⟨claim_C8_sensor_keys_subset_and_unknown_skipped.1 "KCALLER" exampleTransport
     exampleWeatherData (by decide) "temperature" (by decide),
   claim_C8_sensor_keys_subset_and_unknown_skipped.2 "KCALLER" exampleWeatherData
     [] exampleWeatherData.sensors "bogus" (Rat.mk' 7 1) (by decide)⟩

/-- C9: the scrape pipeline is deterministic — for a fixed station ID
and a fixed successful upstream response, the rendered output does not
depend on the (unspecified) iteration order of the Go sensors map, the
only internal source of nondeterminism. -/
theorem claim_C9_render_independent_of_iteration_order (s : String)
    (tr : TransportResult) (d : WeatherData) (l₁ l₂ : List (String × ℚ))
    (h : fetchWeatherData s tr = .ok d)
    (h₁ : l₁.Perm d.sensors) (h₂ : l₂.Perm d.sensors) :
    renderWith s d l₁ = renderWith s d l₂ := by
  obtain ⟨obs, rfl⟩ := fetch_ok_shape h
  have hsens : ((mkWeatherData s obs).sensors.map Prod.fst).Nodup := by
    rw [mkWeatherData_sensors_fst]
    exact sensorKeys_nodup
  have hnd : (l₁.map Prod.fst).Nodup := (h₁.map Prod.fst).nodup_iff.mpr hsens
  unfold renderWith
  rw [setGauges_perm emptyGauges (h₁.trans h₂.symm) hnd]

/-- C9 witness: populating in reversed map order renders identically. -/
theorem claim_C9_witness :
    renderWith "KCALLER" exampleWeatherData exampleWeatherData.sensors.reverse =
      renderWith "KCALLER" exampleWeatherData exampleWeatherData.sensors :=
  claim_C9_render_independent_of_iteration_order "KCALLER" exampleTransport
    exampleWeatherData exampleWeatherData.sensors.reverse exampleWeatherData.sensors
    (by decide) (List.reverse_perm _) (List.Perm.refl _)

/-- C10: every error return of the fetcher carries the zero-valued
`WeatherData`: no partially populated observation data accompanies an
error. -/
theorem claim_C10_errors_return_zero_data (s : String) (tr : TransportResult)
    (d : WeatherData) (e : FetchError)
    (h : fetchWeatherData s tr = .err d e) : d = zeroWeatherData := by
  unfold fetchWeatherData at h
  split at h
  · exact (((FetchResult.err.injEq _ _ _ _).mp h).1).symm
  · split at h
    · exact (((FetchResult.err.injEq _ _ _ _).mp h).1).symm
    · split at h
      · exact (((FetchResult.err.injEq _ _ _ _).mp h).1).symm
      · split at h
        · exact (((FetchResult.err.injEq _ _ _ _).mp h).1).symm
        · split at h
          · exact absurd h (by simp)
          · exact absurd h (by simp)

/-- C10 witness on the decode-error path. -/
theorem claim_C10_witness :
    fetchWeatherData "KTEST1" (.response 200 (.body (.invalid "not json"))) =
        .err zeroWeatherData .decodeError ∧
      zeroWeatherData = zeroWeatherData :=
  ⟨by decide,
   claim_C10_errors_return_zero_data "KTEST1" (.response 200 (.body (.invalid "not json")))
     zeroWeatherData .decodeError (by decide)⟩

end WundergroundExporter
